import Mathlib

/-!
Verification of the app-lifecycle state machine of `adt-domain-poc`.

The repository contains an event catalog (`events.ts`), a reducer-style
draft (`poc-reducer.ts`: `mapNewState`, `reduce`, `Root`) and a
typestate-style draft (`apply`, `buildNew` / `buildNotActivated` /
`buildActive` / `buildDeleted`, `mapDbState`).  The shared enums
(`AppStatus`, `InfrastructureProvider`, `InfrastructureStatus`,
`AwsRegion`) and the persisted row type `DbState` live in a `common.ts`
module that is not part of the tree; they are modelled from the spec
(sections 3 and 6).
-/

/-- Modelled from the spec: `status` enum of an app snapshot
(`common.ts` is absent from the tree; spec section 3 lists the values
New, Active, Deleted, Corrupted). -/
inductive AppStatus where
  | New
  | Active
  | Deleted
  | Corrupted
deriving DecidableEq

/-- Modelled from the spec: infrastructure provider enum {AWS, AZURE}
(spec section 3; `common.ts` absent).  The same enum is redeclared
locally in the typestate draft. -/
inductive InfrastructureProvider where
  | AWS
  | AZURE
deriving DecidableEq

/-- Infrastructure status tag, as declared in the typestate draft
(`enum InfrastructureStatus { NotSelected, Selected }`). -/
inductive InfrastructureStatus where
  | NotSelected
  | Selected
deriving DecidableEq

/-- Modelled from the spec: an AWS region code (opaque string such as
"us-east-1"; spec section 4.1 treats it as a type-level tag only). -/
def AwsRegion : Type := String

instance : DecidableEq AwsRegion := fun a b => String.decEq a b

/-- Payload of `ExistingInfrastructureSelected` (events.ts lines 12-24):
`{ uuid } & ({ infrastructureProvider: AWS } | { infrastructureProvider: AZURE })`.
Neither branch of the union carries any further field, so the payload is
exactly a uuid together with a provider. -/
structure EISPayload where
  uuid : String
  infrastructureProvider : InfrastructureProvider
deriving DecidableEq

/-- Payload of `BuildRequested` (events.ts lines 26-39): the AWS branch
of the union carries `region : AwsRegion`, the AZURE branch does not. -/
inductive BRPayload where
  | aws (uuid : String) (region : AwsRegion)
  | azure (uuid : String)
deriving DecidableEq

/-- Provider tag of a `BuildRequested` payload. -/
def BRPayload.infrastructureProvider : BRPayload → InfrastructureProvider
  | .aws _ _ => .AWS
  | .azure _ => .AZURE

/-- Region component of a `BuildRequested` payload, when present. -/
def BRPayload.region? : BRPayload → Option AwsRegion
  | .aws _ r => some r
  | .azure _ => none

/-- Uuid of a `BuildRequested` payload. -/
def BRPayload.uuid : BRPayload → String
  | .aws u _ => u
  | .azure u => u

/-- The domain event union of events.ts (`AppDomainEvent`).  The
payloads of `AppCreated`, `AppActivated` and `AppDeleted` are just
`{ uuid }`. -/
inductive AppDomainEvent where
  | AppCreated (uuid : String)
  | ExistingInfrastructureSelected (payload : EISPayload)
  | BuildRequested (payload : BRPayload)
  | AppActivated (uuid : String)
  | AppDeleted (uuid : String)
deriving DecidableEq

/-- The `infrastructure` tagged union of a snapshot:
`NotSelectedInfrastructure | SelectedInfrastructure` (a status tag, and
for Selected the provider in field `type`). -/
inductive Infrastructure where
  | NotSelected
  | Selected (type : InfrastructureProvider)
deriving DecidableEq

/-- The `status` discriminant of an `infrastructure` value
(`infrastructure.status` in the source). -/
def Infrastructure.statusOf : Infrastructure → InfrastructureStatus
  | .NotSelected => .NotSelected
  | .Selected _ => .Selected

/-- The provider of an `infrastructure` value, when selected
(`infrastructure.type` in the source). -/
def Infrastructure.provider? : Infrastructure → Option InfrastructureProvider
  | .NotSelected => none
  | .Selected p => some p

/-- A snapshot of one app: the common shape of the `State` / `AppState`
unions (`NewState`, `NotActivatedState`, `ActiveState`, `DeletedState`,
`CorruptedState`).  All members carry `uuid` and `status`; the
TypeScript `CorruptedState` omits the `infrastructure` field, but the
reducers only ever reach a corrupted snapshot through an object spread
that preserves whatever fields the input had, so the field is kept
here. -/
structure AppSnapshot where
  uuid : String
  status : AppStatus
  infrastructure : Infrastructure
deriving DecidableEq

/-- `isNewState` (both drafts): `status === New` and
`infrastructure.status === NotSelected`. -/
def isNewState (s : AppSnapshot) : Bool :=
  s.status == AppStatus.New
    && s.infrastructure.statusOf == InfrastructureStatus.NotSelected

/-- `isNotActivatedState` (both drafts): `status === New` and
`infrastructure.status === Selected`. -/
def isNotActivatedState (s : AppSnapshot) : Bool :=
  s.status == AppStatus.New
    && s.infrastructure.statusOf == InfrastructureStatus.Selected

/-- `isActiveState` of the typestate draft: `status === Active` only. -/
def isActiveState (s : AppSnapshot) : Bool :=
  s.status == AppStatus.Active

/-- `isDeletedState` of the reducer draft: `status === Deleted`. -/
def isDeletedState (s : AppSnapshot) : Bool :=
  s.status == AppStatus.Deleted

/-- `applyExistingInfrastructureSelected`: spread the state and replace
`infrastructure` with `{ status: Selected, type: payload.infrastructureProvider }`. -/
def applyExistingInfrastructureSelected (state : AppSnapshot) (pl : EISPayload) : AppSnapshot :=
  { state with infrastructure := Infrastructure.Selected pl.infrastructureProvider }

/-- `applyAppDeleted`: spread the state and set `status = Deleted`. -/
def applyAppDeleted (state : AppSnapshot) : AppSnapshot :=
  { state with status := AppStatus.Deleted }

/-- `applyAppActivated`: spread the state and set `status = Active`. -/
def applyAppActivated (state : AppSnapshot) : AppSnapshot :=
  { state with status := AppStatus.Active }

/-- `apply` of the typestate draft: switch on `event.type`;
`ExistingInfrastructureSelected` is legal on a new state, `AppDeleted`
on a not-activated, new or active state, `AppActivated` on a
not-activated state; an illegal event spreads the state with
`status = Corrupted`; every other event type (`AppCreated`,
`BuildRequested`) falls to the default branch and returns the state
unchanged. -/
def apply (state : AppSnapshot) (event : AppDomainEvent) : AppSnapshot :=
  match event with
  | AppDomainEvent.ExistingInfrastructureSelected pl =>
      if isNewState state then
        applyExistingInfrastructureSelected state pl
      else
        { state with status := AppStatus.Corrupted }
  | AppDomainEvent.AppDeleted _ =>
      if isNotActivatedState state || isNewState state || isActiveState state then
        applyAppDeleted state
      else
        { state with status := AppStatus.Corrupted }
  | AppDomainEvent.AppActivated _ =>
      if isNotActivatedState state then
        applyAppActivated state
      else
        { state with status := AppStatus.Corrupted }
  | _ => state

/-- `reduce` of the reducer draft (poc-reducer.ts lines 273-327).
`AppCreated` builds a fresh new snapshot from the event uuid;
`ExistingInfrastructureSelected` and `AppActivated` behave as in
`apply`; the `AppDeleted` case tests `isDeletedState(state)` and keeps
the snapshot Deleted when the test holds, corrupting it otherwise; the
default branch (`BuildRequested`) returns the state unchanged. -/
def reduce (state : AppSnapshot) (event : AppDomainEvent) : AppSnapshot :=
  match event with
  | AppDomainEvent.AppCreated u =>
      { uuid := u, status := AppStatus.New, infrastructure := Infrastructure.NotSelected }
  | AppDomainEvent.ExistingInfrastructureSelected pl =>
      if isNewState state then
        { state with infrastructure := Infrastructure.Selected pl.infrastructureProvider }
      else
        { state with status := AppStatus.Corrupted }
  | AppDomainEvent.AppActivated _ =>
      if isNotActivatedState state then
        { state with status := AppStatus.Active }
      else
        { state with status := AppStatus.Corrupted }
  | AppDomainEvent.AppDeleted _ =>
      if isDeletedState state then
        { state with status := AppStatus.Deleted }
      else
        { state with status := AppStatus.Corrupted }
  | AppDomainEvent.BuildRequested _ => state

/-- Modelled from the spec: the persisted snapshot row (`DbState` of the
absent `common.ts`; spec section 6 gives the logical fields: `uuid`,
`status`, `infrastructureStatus`, and an optional
`infrastructureProvider`, present iff Selected). -/
structure DbState where
  uuid : String
  status : AppStatus
  infrastructureStatus : InfrastructureStatus
  infrastructureProvider : Option InfrastructureProvider
deriving DecidableEq

/-- State of the `New` typestate variant, together with its dispatched
events (`NewState & DomainEntity<AppDomainEvent>`). -/
structure NewEntity where
  uuid : String
  dispatchedEvents : List AppDomainEvent
deriving DecidableEq

/-- State of the `NotActivated` variant: status New with a selected
provider, plus dispatched events. -/
structure NotActivatedEntity where
  uuid : String
  provider : InfrastructureProvider
  dispatchedEvents : List AppDomainEvent
deriving DecidableEq

/-- State of the `Active` variant: status Active with a selected
provider, plus dispatched events. -/
structure ActiveEntity where
  uuid : String
  provider : InfrastructureProvider
  dispatchedEvents : List AppDomainEvent
deriving DecidableEq

/-- State of the `Deleted` variant: either infrastructure value, plus
dispatched events. -/
structure DeletedEntity where
  uuid : String
  infrastructure : Infrastructure
  dispatchedEvents : List AppDomainEvent
deriving DecidableEq

/-- State of the `Corrupted` variant: uuid only (the TypeScript
`Corrupted` interface has no infrastructure field), plus dispatched
events. -/
structure CorruptedEntity where
  uuid : String
  dispatchedEvents : List AppDomainEvent
deriving DecidableEq

/-- The `App` typestate union:
`New | NotActivated | Active | Deleted | Corrupted`. -/
inductive App where
  | New (e : NewEntity)
  | NotActivated (e : NotActivatedEntity)
  | Active (e : ActiveEntity)
  | Deleted (e : DeletedEntity)
  | Corrupted (e : CorruptedEntity)
deriving DecidableEq

/-- `selectInfrastructure` of `buildNew`: construct an
`ExistingInfrastructureSelected` event from the entity uuid and the
chosen provider, move the infrastructure to Selected, and return the
`NotActivated` variant carrying that single event as its dispatched
events. -/
def NewEntity.selectInfrastructure (s : NewEntity) (type : InfrastructureProvider) : NotActivatedEntity :=
  { uuid := s.uuid
    provider := type
    dispatchedEvents := [AppDomainEvent.ExistingInfrastructureSelected ⟨s.uuid, type⟩] }

/-- `delete` of `buildNew`: construct an `AppDeleted` event, set status
Deleted (infrastructure stays NotSelected) and return the `Deleted`
variant carrying that single event. -/
def NewEntity.delete (s : NewEntity) : DeletedEntity :=
  { uuid := s.uuid
    infrastructure := Infrastructure.NotSelected
    dispatchedEvents := [AppDomainEvent.AppDeleted s.uuid] }

/-- `activate` of `buildNotActivated`: construct an `AppActivated`
event, set status Active and return the `Active` variant carrying that
single event. -/
def NotActivatedEntity.activate (s : NotActivatedEntity) : ActiveEntity :=
  { uuid := s.uuid
    provider := s.provider
    dispatchedEvents := [AppDomainEvent.AppActivated s.uuid] }

/-- `delete` of `buildNotActivated`: construct an `AppDeleted` event,
set status Deleted (infrastructure stays Selected) and return the
`Deleted` variant carrying that single event. -/
def NotActivatedEntity.delete (s : NotActivatedEntity) : DeletedEntity :=
  { uuid := s.uuid
    infrastructure := Infrastructure.Selected s.provider
    dispatchedEvents := [AppDomainEvent.AppDeleted s.uuid] }

/-- `delete` of `buildActive`: construct an `AppDeleted` event, set
status Deleted (infrastructure stays Selected) and return the `Deleted`
variant carrying that single event. -/
def ActiveEntity.delete (s : ActiveEntity) : DeletedEntity :=
  { uuid := s.uuid
    infrastructure := Infrastructure.Selected s.provider
    dispatchedEvents := [AppDomainEvent.AppDeleted s.uuid] }

/-- `mapDbState` (the reconstruction function `fromPersisted` of the
spec): sequential field tests on the persisted row.  New rows with
NotSelected infrastructure rebuild the `New` variant; New rows with
Selected infrastructure and a present provider rebuild `NotActivated`;
Active rows with Selected infrastructure and a present provider rebuild
`Active`; Deleted rows rebuild `Deleted` when the infrastructure
columns are consistent; every remaining row falls through to the final
`Corrupted` return.  Every rebuilt variant carries an empty dispatched
event list. -/
def mapDbState (dbState : DbState) : App :=
  match dbState.status, dbState.infrastructureStatus, dbState.infrastructureProvider with
  | AppStatus.New, InfrastructureStatus.NotSelected, _ =>
      App.New { uuid := dbState.uuid, dispatchedEvents := [] }
  | AppStatus.New, InfrastructureStatus.Selected, some p =>
      App.NotActivated { uuid := dbState.uuid, provider := p, dispatchedEvents := [] }
  | AppStatus.Active, InfrastructureStatus.Selected, some p =>
      App.Active { uuid := dbState.uuid, provider := p, dispatchedEvents := [] }
  | AppStatus.Deleted, InfrastructureStatus.Selected, some p =>
      App.Deleted { uuid := dbState.uuid, infrastructure := Infrastructure.Selected p, dispatchedEvents := [] }
  | AppStatus.Deleted, InfrastructureStatus.NotSelected, _ =>
      App.Deleted { uuid := dbState.uuid, infrastructure := Infrastructure.NotSelected, dispatchedEvents := [] }
  | _, _, _ =>
      App.Corrupted { uuid := dbState.uuid, dispatchedEvents := [] }

/-- The dispatched event list carried by a variant
(`DomainEntity.dispatchedEvents`). -/
def App.dispatchedEvents : App → List AppDomainEvent
  | .New e => e.dispatchedEvents
  | .NotActivated e => e.dispatchedEvents
  | .Active e => e.dispatchedEvents
  | .Deleted e => e.dispatchedEvents
  | .Corrupted e => e.dispatchedEvents

/-- The snapshot wrapped by a variant, when the variant carries one
(the `Corrupted` interface has no infrastructure field, so no full
snapshot can be extracted from it). -/
def App.wrappedSnapshot? : App → Option AppSnapshot
  | .New e => some { uuid := e.uuid, status := AppStatus.New, infrastructure := Infrastructure.NotSelected }
  | .NotActivated e => some { uuid := e.uuid, status := AppStatus.New, infrastructure := Infrastructure.Selected e.provider }
  | .Active e => some { uuid := e.uuid, status := AppStatus.Active, infrastructure := Infrastructure.Selected e.provider }
  | .Deleted e => some { uuid := e.uuid, status := AppStatus.Deleted, infrastructure := e.infrastructure }
  | .Corrupted _ => none

/-- Variant tags of the typestate union, used to compare the
reconstruction function with the claim's mapping table. -/
inductive AppVariantTag where
  | New
  | NotActivated
  | Active
  | Deleted
  | Corrupted
deriving DecidableEq

/-- The tag of a variant. -/
def App.tag : App → AppVariantTag
  | .New _ => AppVariantTag.New
  | .NotActivated _ => AppVariantTag.NotActivated
  | .Active _ => AppVariantTag.Active
  | .Deleted _ => AppVariantTag.Deleted
  | .Corrupted _ => AppVariantTag.Corrupted

/-- Specification-side mapping table for `fromPersisted`, written from
the claim's words: New with NotSelected goes to the New variant, New
with Selected to NotActivated, Active with Selected to Active, Deleted
with either infrastructure value to Deleted, and every other
combination to Corrupted. -/
def variantForSpec (status : AppStatus) (infra : Infrastructure) : AppVariantTag :=
  match status, infra with
  | AppStatus.New, Infrastructure.NotSelected => AppVariantTag.New
  | AppStatus.New, Infrastructure.Selected _ => AppVariantTag.NotActivated
  | AppStatus.Active, Infrastructure.Selected _ => AppVariantTag.Active
  | AppStatus.Deleted, _ => AppVariantTag.Deleted
  | _, _ => AppVariantTag.Corrupted

/-- The persisted row corresponding to a snapshot (spec section 6:
`infrastructureProvider` present iff the infrastructure is Selected). -/
def AppSnapshot.toDbState (s : AppSnapshot) : DbState :=
  { uuid := s.uuid
    status := s.status
    infrastructureStatus := s.infrastructure.statusOf
    infrastructureProvider := s.infrastructure.provider? }

/-- Modelled from the spec: a persisted row is reachable when it is one
of the shapes the legal lifecycle of spec section 3 produces — a new
row before provider choice, a new row after provider choice, an active
row (provider always selected), or a deleted row with either
infrastructure value, the provider column being present exactly when
the infrastructure is Selected. -/
def DbState.reachable (db : DbState) : Bool :=
  (db.status == AppStatus.New
      && db.infrastructureStatus == InfrastructureStatus.NotSelected
      && db.infrastructureProvider.isNone)
    || (db.status == AppStatus.New
      && db.infrastructureStatus == InfrastructureStatus.Selected
      && db.infrastructureProvider.isSome)
    || (db.status == AppStatus.Active
      && db.infrastructureStatus == InfrastructureStatus.Selected
      && db.infrastructureProvider.isSome)
    || (db.status == AppStatus.Deleted
      && ((db.infrastructureStatus == InfrastructureStatus.Selected
          && db.infrastructureProvider.isSome)
        || (db.infrastructureStatus == InfrastructureStatus.NotSelected
          && db.infrastructureProvider.isNone)))

/-- The invariant of spec section 3 on a snapshot: status Active
implies the infrastructure is Selected. -/
def invariantHolds (s : AppSnapshot) : Bool :=
  s.status != AppStatus.Active
    || s.infrastructure.statusOf == InfrastructureStatus.Selected

/-- A fresh new snapshot, used as a concrete input. -/
def snapNew : AppSnapshot :=
  { uuid := "u1", status := AppStatus.New, infrastructure := Infrastructure.NotSelected }

/-- A new snapshot with AWS infrastructure already selected. -/
def snapNotActivated : AppSnapshot :=
  { uuid := "u1", status := AppStatus.New, infrastructure := Infrastructure.Selected InfrastructureProvider.AWS }

/-- An active snapshot with AWS infrastructure. -/
def snapActive : AppSnapshot :=
  { uuid := "u1", status := AppStatus.Active, infrastructure := Infrastructure.Selected InfrastructureProvider.AWS }

/-- A deleted snapshot with AWS infrastructure. -/
def snapDeleted : AppSnapshot :=
  { uuid := "u1", status := AppStatus.Deleted, infrastructure := Infrastructure.Selected InfrastructureProvider.AWS }

/-- A corrupted snapshot that still carries an infrastructure value. -/
def snapCorrupted : AppSnapshot :=
  { uuid := "u1", status := AppStatus.Corrupted, infrastructure := Infrastructure.Selected InfrastructureProvider.AZURE }

/-- Claim C1: `AppDeleted` on a New or Active snapshot should yield a
Deleted snapshot with the infrastructure unchanged, and on an already
Deleted snapshot should yield Corrupted.  The typestate draft's `apply`
conforms at both inputs, while the reducer draft's `reduce` has the
guard of its `AppDeleted` case inverted: it corrupts the legal delete
of an active snapshot and leaves a double delete Deleted. -/
theorem c1_appDeleted_apply_conforms_reduce_diverges :
    apply snapActive (AppDomainEvent.AppDeleted "u1")
        = { uuid := "u1", status := AppStatus.Deleted,
            infrastructure := Infrastructure.Selected InfrastructureProvider.AWS }
    ∧ (apply snapDeleted (AppDomainEvent.AppDeleted "u1")).status = AppStatus.Corrupted
    ∧ (reduce snapActive (AppDomainEvent.AppDeleted "u1")).status = AppStatus.Corrupted
    ∧ reduce snapDeleted (AppDomainEvent.AppDeleted "u1") = snapDeleted :=
  ⟨rfl, rfl, rfl, rfl⟩

/-- Claim C2: `ExistingInfrastructureSelected` with provider `p` on a
snapshot with status New and NotSelected infrastructure yields the same
snapshot with the infrastructure set to Selected `p`; on every other
snapshot it yields the same snapshot with only the status forced to
Corrupted.  Both `apply` and `reduce` behave this way. -/
theorem c2_existingInfrastructureSelected_transition (s : AppSnapshot) (pl : EISPayload) :
    (isNewState s = true →
      apply s (AppDomainEvent.ExistingInfrastructureSelected pl)
          = { s with infrastructure := Infrastructure.Selected pl.infrastructureProvider }
        ∧ reduce s (AppDomainEvent.ExistingInfrastructureSelected pl)
          = { s with infrastructure := Infrastructure.Selected pl.infrastructureProvider })
    ∧ (isNewState s = false →
      apply s (AppDomainEvent.ExistingInfrastructureSelected pl)
          = { s with status := AppStatus.Corrupted }
        ∧ reduce s (AppDomainEvent.ExistingInfrastructureSelected pl)
          = { s with status := AppStatus.Corrupted }) := by
  rcases s with ⟨u, st, infra⟩
  constructor <;> intro h <;> cases st <;> cases infra <;>
    first
      | exact ⟨rfl, rfl⟩
      | exact Bool.noConfusion h

/-- Witness for claim C2 at the fresh new snapshot and provider AWS. -/
theorem c2_witness :
    isNewState snapNew = true
    ∧ apply snapNew (AppDomainEvent.ExistingInfrastructureSelected ⟨"u1", InfrastructureProvider.AWS⟩)
        = { snapNew with infrastructure := Infrastructure.Selected InfrastructureProvider.AWS } :=
  ⟨rfl,
    ((c2_existingInfrastructureSelected_transition snapNew
        ⟨"u1", InfrastructureProvider.AWS⟩).1 rfl).1⟩

/-- Claim C3: `AppActivated` on a snapshot with status New and Selected
infrastructure yields the same snapshot with status Active and the
infrastructure unchanged; on every other snapshot the result has status
Corrupted.  Both `apply` and `reduce` behave this way. -/
theorem c3_appActivated_transition (s : AppSnapshot) (u : String) :
    (isNotActivatedState s = true →
      apply s (AppDomainEvent.AppActivated u) = { s with status := AppStatus.Active }
        ∧ reduce s (AppDomainEvent.AppActivated u) = { s with status := AppStatus.Active })
    ∧ (isNotActivatedState s = false →
      (apply s (AppDomainEvent.AppActivated u)).status = AppStatus.Corrupted
        ∧ (reduce s (AppDomainEvent.AppActivated u)).status = AppStatus.Corrupted) := by
  rcases s with ⟨uu, st, infra⟩
  constructor <;> intro h <;> cases st <;> cases infra <;>
    first
      | exact ⟨rfl, rfl⟩
      | exact Bool.noConfusion h

/-- Witness for claim C3 at a not-activated snapshot. -/
theorem c3_witness :
    isNotActivatedState snapNotActivated = true
    ∧ apply snapNotActivated (AppDomainEvent.AppActivated "u1")
        = { snapNotActivated with status := AppStatus.Active } :=
  ⟨rfl, ((c3_appActivated_transition snapNotActivated "u1").1 rfl).1⟩

/-- Claim C4: over an existing snapshot, `apply` ignores `AppCreated`
and returns the snapshot unchanged, and `BuildRequested` also returns
the snapshot unchanged (in `reduce` as well, through its default
branch). -/
theorem c4_appCreated_buildRequested_ignored (s : AppSnapshot) (u : String) (pl : BRPayload) :
    apply s (AppDomainEvent.AppCreated u) = s
    ∧ apply s (AppDomainEvent.BuildRequested pl) = s
    ∧ reduce s (AppDomainEvent.BuildRequested pl) = s :=
  ⟨rfl, rfl, rfl⟩

/-- Claim C5: the reconstruction function is total and sends a
persisted row to exactly the variant the claim's table determines from
its status and infrastructure: New with NotSelected to New, New with
Selected to NotActivated, Active with Selected to Active, Deleted with
either infrastructure value to Deleted, and every other combination
(including Active with NotSelected and Corrupted) to Corrupted.  The
row is built from the logical fields, with the provider column present
exactly when the infrastructure is Selected, as spec section 6
requires of persisted rows. -/
theorem c5_fromPersisted_variant_table (u : String) (st : AppStatus) (infra : Infrastructure) :
    (mapDbState
        { uuid := u, status := st,
          infrastructureStatus := infra.statusOf,
          infrastructureProvider := infra.provider? }).tag
      = variantForSpec st infra := by
  cases st <;> cases infra <;> rfl

/-- Claim C6: every typestate operation returns a variant whose
dispatched event list is exactly the one event of that transition, and
every variant rebuilt from a persisted row carries an empty list. -/
theorem c6_single_event_per_transition (s1 : NewEntity) (s2 : NotActivatedEntity)
    (s3 : ActiveEntity) (t : InfrastructureProvider) (db : DbState) :
    (s1.selectInfrastructure t).dispatchedEvents
        = [AppDomainEvent.ExistingInfrastructureSelected ⟨s1.uuid, t⟩]
    ∧ s1.delete.dispatchedEvents = [AppDomainEvent.AppDeleted s1.uuid]
    ∧ s2.activate.dispatchedEvents = [AppDomainEvent.AppActivated s2.uuid]
    ∧ s2.delete.dispatchedEvents = [AppDomainEvent.AppDeleted s2.uuid]
    ∧ s3.delete.dispatchedEvents = [AppDomainEvent.AppDeleted s3.uuid]
    ∧ (mapDbState db).dispatchedEvents = [] := by
  refine ⟨rfl, rfl, rfl, rfl, rfl, ?_⟩
  rcases db with ⟨u, st, infraStatus, infraProvider⟩
  cases st <;> cases infraStatus <;> cases infraProvider <;> rfl

/-- Claim C7 counterexample: selecting AWS infrastructure on a fresh
entity is a saturated call taking only the provider — no region
argument exists — and the produced `ExistingInfrastructureSelected`
payload is exactly a uuid and a provider, with no region component;
this refutes the claim that the AWS variant of this payload carries a
region code and that `selectInfrastructure` requires a region for
AWS. -/
theorem c7_counterexample_aws_selection_without_region :
    NewEntity.selectInfrastructure { uuid := "u1", dispatchedEvents := [] }
        InfrastructureProvider.AWS
      = { uuid := "u1", provider := InfrastructureProvider.AWS,
          dispatchedEvents :=
            [AppDomainEvent.ExistingInfrastructureSelected
              ⟨"u1", InfrastructureProvider.AWS⟩] } := rfl

/-- Claim C7 (amended): `BuildRequested` payloads carry the chosen
provider and, when the provider is AWS, additionally a region code,
while the AZURE variant structurally omits the region; an
`ExistingInfrastructureSelected` payload is fully determined by its
uuid and provider (no region component in either variant); and
`selectInfrastructure` takes only the provider, producing the
region-free payload, for AWS as for AZURE. -/
theorem c7_payload_shapes :
    (∀ b : BRPayload,
      (b.infrastructureProvider = InfrastructureProvider.AWS → b.region?.isSome = true)
        ∧ (b.infrastructureProvider = InfrastructureProvider.AZURE → b.region? = none))
    ∧ (∀ p : EISPayload, p = ⟨p.uuid, p.infrastructureProvider⟩)
    ∧ (∀ (s : NewEntity) (t : InfrastructureProvider),
        (s.selectInfrastructure t).dispatchedEvents
          = [AppDomainEvent.ExistingInfrastructureSelected ⟨s.uuid, t⟩]) := by
  refine ⟨?_, ?_, ?_⟩
  · intro b
    cases b with
    | aws u r => exact ⟨fun _ => rfl, fun h => InfrastructureProvider.noConfusion h⟩
    | azure u => exact ⟨fun h => InfrastructureProvider.noConfusion h, fun _ => rfl⟩
  · intro p
    rfl
  · intro s t
    rfl

/-- Witness for the amended claim C7 at a concrete AWS build request. -/
theorem c7_witness :
    (BRPayload.aws "u1" "us-east-1").infrastructureProvider = InfrastructureProvider.AWS
    ∧ (BRPayload.aws "u1" "us-east-1").region?.isSome = true :=
  ⟨rfl, (c7_payload_shapes.1 (BRPayload.aws "u1" "us-east-1")).1 rfl⟩

/-- Claim C8: the invariant (status Active implies Selected
infrastructure) is preserved by every event application through
`apply`, and every variant the reconstruction function returns wraps a
snapshot satisfying it (the Corrupted variant wraps no snapshot and
carries no structural guarantee). -/
theorem c8_invariant_preserved :
    (∀ (s : AppSnapshot) (e : AppDomainEvent),
      invariantHolds s = true → invariantHolds (apply s e) = true)
    ∧ (∀ (db : DbState) (s : AppSnapshot),
      (mapDbState db).wrappedSnapshot? = some s → invariantHolds s = true) := by
  constructor
  · intro s e h
    rcases s with ⟨u, st, infra⟩
    cases e <;> cases st <;> cases infra <;>
      first
        | rfl
        | exact h
  · intro db s h
    rcases db with ⟨u, st, infraStatus, infraProvider⟩
    cases st <;> cases infraStatus <;> cases infraProvider <;>
      first
        | exact Option.noConfusion h
        | (injection h with h2; subst h2; rfl)

/-- Witness for claim C8: the invariant survives deleting a fresh
snapshot, and the variant rebuilt from an active persisted row wraps an
invariant-satisfying snapshot. -/
theorem c8_witness :
    invariantHolds snapNew = true
    ∧ invariantHolds (apply snapNew (AppDomainEvent.AppDeleted "u1")) = true
    ∧ (mapDbState
        { uuid := "u2", status := AppStatus.Active,
          infrastructureStatus := InfrastructureStatus.Selected,
          infrastructureProvider := some InfrastructureProvider.AZURE }).wrappedSnapshot?
        = some { uuid := "u2", status := AppStatus.Active,
                 infrastructure := Infrastructure.Selected InfrastructureProvider.AZURE }
    ∧ invariantHolds
        { uuid := "u2", status := AppStatus.Active,
          infrastructure := Infrastructure.Selected InfrastructureProvider.AZURE } = true :=
  ⟨rfl, c8_invariant_preserved.1 snapNew (AppDomainEvent.AppDeleted "u1") rfl, rfl,
    c8_invariant_preserved.2
      { uuid := "u2", status := AppStatus.Active,
        infrastructureStatus := InfrastructureStatus.Selected,
        infrastructureProvider := some InfrastructureProvider.AZURE }
      { uuid := "u2", status := AppStatus.Active,
        infrastructure := Infrastructure.Selected InfrastructureProvider.AZURE }
      rfl⟩

/-- Claim C9: reconstructing a reachable persisted row and extracting
the wrapped snapshot yields the row back, all fields included. -/
theorem c9_fromPersisted_roundtrip (db : DbState) (h : db.reachable = true) :
    (mapDbState db).wrappedSnapshot?.map AppSnapshot.toDbState = some db := by
  rcases db with ⟨u, st, infraStatus, infraProvider⟩
  cases st <;> cases infraStatus <;> cases infraProvider <;>
    first
      | rfl
      | exact Bool.noConfusion h

/-- Concrete active persisted row. -/
def dbRowActive : DbState :=
  { uuid := "u1", status := AppStatus.Active,
    infrastructureStatus := InfrastructureStatus.Selected,
    infrastructureProvider := some InfrastructureProvider.AWS }

/-- Witness for claim C9 at a concrete reachable active row. -/
theorem c9_witness :
    dbRowActive.reachable = true
    ∧ (mapDbState dbRowActive).wrappedSnapshot?.map AppSnapshot.toDbState = some dbRowActive :=
  ⟨rfl, c9_fromPersisted_roundtrip dbRowActive rfl⟩

/-- Claim C10: Corrupted is absorbing under `apply` — every event
applied to a snapshot whose status is Corrupted returns a snapshot
whose status is still Corrupted. -/
theorem c10_corrupted_absorbing (s : AppSnapshot) (e : AppDomainEvent)
    (h : s.status = AppStatus.Corrupted) :
    (apply s e).status = AppStatus.Corrupted := by
  rcases s with ⟨u, st, infra⟩
  obtain rfl : st = AppStatus.Corrupted := h
  cases e <;> cases infra <;> rfl

/-- Witness for claim C10 at a concrete corrupted snapshot. -/
theorem c10_witness :
    snapCorrupted.status = AppStatus.Corrupted
    ∧ (apply snapCorrupted (AppDomainEvent.AppActivated "u1")).status = AppStatus.Corrupted :=
  ⟨rfl, c10_corrupted_absorbing snapCorrupted (AppDomainEvent.AppActivated "u1") rfl⟩
